import Mathlib

/-!
Verification of the voice recording controller in
`src/frontend/src/components/voiceinput.js` (the `VoiceInput` React
component).  The component's state hooks and refs become a record
`VoiceState`; each handler (`startRecording`, `pauseRecording`,
`resumeRecording`, `stopRecording`, `clearTranscript`,
`recognition.onresult`, `recognition.onerror`, `recognition.onend`, the
timer interval tick and the `updateLevel` sampling tick) becomes a pure
function from `VoiceState` to `VoiceState`, paired with the list of
observable side effects the call performs (host callbacks, resource
releases, engine start/stop).  Refs that the source never clears
(`timerRef`, `streamRef`, `audioContextRef`) are booleans that stay `true`
once set, exactly as in the source.
-/

namespace VoiceInput

/-- Observable side effects performed by the component's operations:
host callbacks (`onTranscript`, `onSend`), recognition engine calls
(`recognition.start()` / `recognition.stop()`), and resource teardown
(`clearInterval`, stopping the stream tracks, closing the audio context). -/
inductive Event where
  | onTranscript (text : String)
  | onSend (text : String)
  | recStart
  | recStop
  | clearTimer
  | trackStop
  | contextClose
  deriving DecidableEq

/-- The component state: the six `useState` hooks of `VoiceInput`
(`isRecording`, `isPaused`, `transcript`, `interimTranscript`,
`audioLevel`, `recordingTime`), whether the recognition engine is
currently listening, whether the interval timer is currently scheduled
(`timerRunning`), and the nullable refs `timerRef`, `streamRef`,
`audioContextRef` modelled as set/unset flags (the source never resets
them to null). -/
structure VoiceState where
  isRecording : Bool
  isPaused : Bool
  transcript : String
  interimTranscript : String
  audioLevel : ℚ
  recordingTime : ℕ
  listening : Bool
  timerRunning : Bool
  timerSet : Bool
  streamSet : Bool
  ctxSet : Bool
  deriving DecidableEq

/-- The initial state of the component: all hooks at their `useState`
initial values, all refs null. -/
def initState : VoiceState :=
  { isRecording := false, isPaused := false, transcript := "",
    interimTranscript := "", audioLevel := 0, recordingTime := 0,
    listening := false, timerRunning := false, timerSet := false,
    streamSet := false, ctxSet := false }

/-- The accumulation loop of `recognition.onresult`: one pass over the
result batch, building `interim` (parts with `isFinal == false`,
concatenated with no separator) and `final` (parts with
`isFinal == true`, each followed by a space).  A result part is a pair of
its transcript text and its `isFinal` flag; the returned pair is
`(interim, final)`. -/
def accumulateBatch (results : List (String × Bool)) : String × String :=
  results.foldl
    (fun acc r =>
      if r.2 then (acc.1, acc.2 ++ r.1 ++ " ") else (acc.1 ++ r.1, acc.2))
    ("", "")

/-- `recognition.onresult`: if the batch produced any final text, append
it to `transcript` and clear `interimTranscript`; otherwise replace
`interimTranscript` with the batch's interim text. -/
def onresult (results : List (String × Bool)) (s : VoiceState) : VoiceState :=
  if (accumulateBatch results).2 ≠ "" then
    { s with transcript := s.transcript ++ (accumulateBatch results).2,
             interimTranscript := "" }
  else
    { s with interimTranscript := (accumulateBatch results).1 }

/-- The resource-teardown effects of `stopRecording`, in source order:
`recognition.stop()` unconditionally (the ref is set once at mount), then
`clearInterval` if `timerRef` is set, then stopping the stream tracks if
`streamRef` is set, then closing the audio context if `audioContextRef`
is set. -/
def teardownEvents (s : VoiceState) : List Event :=
  [Event.recStop]
    ++ (if s.timerSet then [Event.clearTimer] else [])
    ++ (if s.streamSet then [Event.trackStop] else [])
    ++ (if s.ctxSet then [Event.contextClose] else [])

/-- JavaScript `String.prototype.trim`: removes whitespace from both ends
of the string. -/
def jsTrim (s : String) : String :=
  String.mk (((s.data.dropWhile Char.isWhitespace).reverse.dropWhile
    Char.isWhitespace).reverse)

/-- The callback effects of `stopRecording`: if the trimmed transcript is
non-empty, `onTranscript` with the trimmed text, then `onSend` with the
same text when the host supplied it. -/
def callbackEvents (hasOnSend : Bool) (s : VoiceState) : List Event :=
  if jsTrim s.transcript ≠ "" then
    [Event.onTranscript (jsTrim s.transcript)]
      ++ (if hasOnSend then [Event.onSend (jsTrim s.transcript)] else [])
  else []

/-- `stopRecording`: sets `isRecording := false`, `isPaused := false`,
`audioLevel := 0`, performs the teardown and then the callbacks.  The
transcript fields are not touched, and none of the refs are cleared. -/
def stopRecording (hasOnSend : Bool) (s : VoiceState) :
    VoiceState × List Event :=
  ({ s with isRecording := false, isPaused := false, audioLevel := 0,
            listening := false, timerRunning := false },
   teardownEvents s ++ callbackEvents hasOnSend s)

/-- `recognition.onerror`: a `no-speech` error returns immediately
(listening continues, nothing changes); any other error calls
`stopRecording`. -/
def onerror (hasOnSend : Bool) (err : String) (s : VoiceState) :
    VoiceState × List Event :=
  if err = "no-speech" then (s, [])
  else stopRecording hasOnSend s

/-- `recognition.onend`: the engine has just stopped listening; if the
component is still recording and not paused, `recognition.start()` is
called again, otherwise the engine stays stopped. -/
def onend (s : VoiceState) : VoiceState :=
  if s.isRecording && !s.isPaused then { s with listening := true }
  else { s with listening := false }

/-- `startRecording` (success path: recognition available, microphone
granted): resets the recording flags and all session fields, starts the
recognition engine, acquires the stream and audio context in
`startAudioMonitoring`, and schedules the interval timer.  `audioLevel`
is not reset here. -/
def startRecording (s : VoiceState) : VoiceState × List Event :=
  ({ s with isRecording := true, isPaused := false, transcript := "",
            interimTranscript := "", recordingTime := 0, listening := true,
            timerRunning := true, timerSet := true, streamSet := true,
            ctxSet := true },
   [Event.recStart])

/-- `pauseRecording`: sets `isPaused := true` and stops the recognition
engine.  Nothing else changes: `audioLevel` keeps its last value and the
interval timer keeps running. -/
def pauseRecording (s : VoiceState) : VoiceState × List Event :=
  ({ s with isPaused := true, listening := false }, [Event.recStop])

/-- `resumeRecording`: clears `isPaused` and restarts the recognition
engine. -/
def resumeRecording (s : VoiceState) : VoiceState × List Event :=
  ({ s with isPaused := false, listening := true }, [Event.recStart])

/-- `clearTranscript`: empties both transcript fields and nothing else. -/
def clearTranscript (s : VoiceState) : VoiceState :=
  { s with transcript := "", interimTranscript := "" }

/-- One firing of the `setInterval` callback installed by
`startRecording`: increments `recordingTime` while the interval is
scheduled. -/
def timerTick (s : VoiceState) : VoiceState :=
  if s.timerRunning then { s with recordingTime := s.recordingTime + 1 }
  else s

/-- One `updateLevel` sampling tick over the frequency-bin data: if the
component is not recording or is paused, return without touching
`audioLevel` and without scheduling another animation frame (the `Bool`
records whether `requestAnimationFrame` was called); otherwise store
`min 100 ((average / 255) * 150)` where `average` is the mean of the
byte values, and reschedule. -/
def updateLevel (dataArray : List ℕ) (s : VoiceState) :
    VoiceState × Bool :=
  if !s.isRecording || s.isPaused then (s, false)
  else
    let average : ℚ := (dataArray.sum : ℚ) / (dataArray.length : ℚ)
    ({ s with audioLevel := min 100 (average / 255 * 150) }, true)

/-- The operations that can act on the component state: the five host
operations, the three recognition events, the timer tick and the
sampling tick. -/
inductive Action where
  | start
  | pause
  | resume
  | stop
  | clear
  | ended
  | tick
  | results (rs : List (String × Bool))
  | error (e : String)
  | level (dataArray : List ℕ)
  deriving DecidableEq

/-- Uniform small-step function: dispatches an `Action` to the operation
it names, returning the next state and the observable effects. -/
def step (hasOnSend : Bool) (a : Action) (s : VoiceState) :
    VoiceState × List Event :=
  match a with
  | .start => startRecording s
  | .pause => pauseRecording s
  | .resume => resumeRecording s
  | .stop => stopRecording hasOnSend s
  | .clear => (clearTranscript s, [])
  | .ended => (onend s, [])
  | .tick => (timerTick s, [])
  | .results rs => (onresult rs s, [])
  | .error e => onerror hasOnSend e s
  | .level d => ((updateLevel d s).1, [])

/-- The `onTranscript` payloads among a list of effects. -/
def transcriptEvents (evs : List Event) : List String :=
  evs.filterMap fun e =>
    match e with
    | Event.onTranscript t => some t
    | _ => none

/-- The `onSend` payloads among a list of effects. -/
def sendEvents (evs : List Event) : List String :=
  evs.filterMap fun e =>
    match e with
    | Event.onSend t => some t
    | _ => none

/-- C2: a result batch with final text appends that text (each final part
followed by a separator) to `transcript` and clears `interimTranscript`;
a batch with only interim text wholesale replaces `interimTranscript` and
leaves `transcript` unchanged; from the initial state, the sequence
final "hello", interim "wor", final "world" (each final part appended
with its trailing separator, i.e. the finalized segments are "hello "
and "world ") leaves `transcript = "hello world "` and
`interimTranscript = ""`. -/
theorem onresult_batch_policy (s : VoiceState) (rs : List (String × Bool)) :
    ((accumulateBatch rs).2 ≠ "" →
      onresult rs s =
        { s with transcript := s.transcript ++ (accumulateBatch rs).2,
                 interimTranscript := "" })
    ∧ ((accumulateBatch rs).2 = "" →
      onresult rs s = { s with interimTranscript := (accumulateBatch rs).1 })
    ∧ (∀ p : String, accumulateBatch [(p, true)] = ("", p ++ " "))
    ∧ (onresult [("world", true)]
        (onresult [("wor", false)]
          (onresult [("hello", true)] initState))).transcript = "hello world "
    ∧ (onresult [("world", true)]
        (onresult [("wor", false)]
          (onresult [("hello", true)] initState))).interimTranscript = "" := by
  refine ⟨fun h => ?_, fun h => ?_, fun p => ?_, by decide, by decide⟩
  · simp [onresult, h]
  · simp [onresult, h]
  · simp [accumulateBatch]

/-- Witness for `onresult_batch_policy`: the final-batch clause and the
interim-batch clause evaluated at concrete inputs. -/
theorem onresult_batch_policy_witness :
    onresult [("hi", true)] initState =
      { initState with
          transcript := initState.transcript ++ (accumulateBatch [("hi", true)]).2,
          interimTranscript := "" }
    ∧ onresult [("hm", false)] initState =
      { initState with
          interimTranscript := (accumulateBatch [("hm", false)]).1 } :=
  ⟨(onresult_batch_policy initState [("hi", true)]).1 (by decide),
   (onresult_batch_policy initState [("hm", false)]).2.1 (by decide)⟩

/-- C9: `clearTranscript` empties both transcript fields and changes
nothing else: `isRecording`, `isPaused`, `recordingTime`, `audioLevel`,
the listening flag and the running timer are untouched and no side
effects are performed, so `clear()` during recording leaves the state
recording. -/
theorem clearTranscript_frame (hasOnSend : Bool) (s : VoiceState) :
    (clearTranscript s).transcript = ""
    ∧ (clearTranscript s).interimTranscript = ""
    ∧ (clearTranscript s).isRecording = s.isRecording
    ∧ (clearTranscript s).isPaused = s.isPaused
    ∧ (clearTranscript s).recordingTime = s.recordingTime
    ∧ (clearTranscript s).audioLevel = s.audioLevel
    ∧ (clearTranscript s).listening = s.listening
    ∧ (clearTranscript s).timerRunning = s.timerRunning
    ∧ (step hasOnSend Action.clear s).2 = [] := by
  simp [clearTranscript, step]

/-- C10: `stopRecording` leaves both transcript fields exactly as they
were; they are emptied only by `clearTranscript` or by the reset in
`startRecording`, and every other operation (`pause`, `resume`, timer
tick, `onend`, sampling tick) preserves them as well. -/
theorem stop_preserves_transcripts (hasOnSend : Bool) (s : VoiceState)
    (d : List ℕ) :
    (stopRecording hasOnSend s).1.transcript = s.transcript
    ∧ (stopRecording hasOnSend s).1.interimTranscript = s.interimTranscript
    ∧ (clearTranscript s).transcript = ""
    ∧ (clearTranscript s).interimTranscript = ""
    ∧ (startRecording s).1.transcript = ""
    ∧ (startRecording s).1.interimTranscript = ""
    ∧ (pauseRecording s).1.transcript = s.transcript
    ∧ (pauseRecording s).1.interimTranscript = s.interimTranscript
    ∧ (resumeRecording s).1.transcript = s.transcript
    ∧ (resumeRecording s).1.interimTranscript = s.interimTranscript
    ∧ (timerTick s).transcript = s.transcript
    ∧ (timerTick s).interimTranscript = s.interimTranscript
    ∧ (onend s).transcript = s.transcript
    ∧ (onend s).interimTranscript = s.interimTranscript
    ∧ (updateLevel d s).1.transcript = s.transcript
    ∧ (updateLevel d s).1.interimTranscript = s.interimTranscript := by
  refine ⟨rfl, rfl, rfl, rfl, rfl, rfl, rfl, rfl, rfl, rfl, ?_, ?_, ?_, ?_, ?_, ?_⟩
  all_goals simp only [timerTick, onend, updateLevel]
  all_goals split <;> rfl

theorem transcriptEvents_append (l1 l2 : List Event) :
    transcriptEvents (l1 ++ l2) = transcriptEvents l1 ++ transcriptEvents l2 := by
  simp [transcriptEvents]

theorem sendEvents_append (l1 l2 : List Event) :
    sendEvents (l1 ++ l2) = sendEvents l1 ++ sendEvents l2 := by
  simp [sendEvents]

theorem transcriptEvents_teardown (s : VoiceState) :
    transcriptEvents (teardownEvents s) = [] := by
  unfold transcriptEvents teardownEvents
  split_ifs <;> simp

theorem sendEvents_teardown (s : VoiceState) :
    sendEvents (teardownEvents s) = [] := by
  unfold sendEvents teardownEvents
  split_ifs <;> simp

theorem transcriptEvents_callback (hasOnSend : Bool) (s : VoiceState) :
    transcriptEvents (callbackEvents hasOnSend s) =
      (if jsTrim s.transcript = "" then [] else [jsTrim s.transcript]) := by
  unfold transcriptEvents callbackEvents
  cases hasOnSend <;> split_ifs <;> simp_all

/-- C3: `stopRecording` emits `onTranscript` exactly when the trimmed
transcript is non-empty, once, with the trimmed text; when the host
supplied `onSend` it is emitted immediately after `onTranscript` with the
same text; no other operation emits `onTranscript`; and `startRecording`
immediately followed by `stopRecording` leaves the transcript empty and
emits no `onTranscript`. -/
theorem stop_callback_contract (hasOnSend : Bool) (s : VoiceState)
    (rs : List (String × Bool)) (d : List ℕ) :
    transcriptEvents (stopRecording hasOnSend s).2 =
      (if jsTrim s.transcript = "" then [] else [jsTrim s.transcript])
    ∧ (jsTrim s.transcript ≠ "" →
        (stopRecording true s).2 =
          teardownEvents s ++
            [Event.onTranscript (jsTrim s.transcript),
             Event.onSend (jsTrim s.transcript)])
    ∧ transcriptEvents (step hasOnSend Action.start s).2 = []
    ∧ transcriptEvents (step hasOnSend Action.pause s).2 = []
    ∧ transcriptEvents (step hasOnSend Action.resume s).2 = []
    ∧ transcriptEvents (step hasOnSend Action.clear s).2 = []
    ∧ transcriptEvents (step hasOnSend Action.ended s).2 = []
    ∧ transcriptEvents (step hasOnSend Action.tick s).2 = []
    ∧ transcriptEvents (step hasOnSend (Action.results rs) s).2 = []
    ∧ transcriptEvents (step hasOnSend (Action.level d) s).2 = []
    ∧ transcriptEvents (step hasOnSend (Action.error "no-speech") s).2 = []
    ∧ (stopRecording hasOnSend (startRecording s).1).1.transcript = ""
    ∧ transcriptEvents (stopRecording hasOnSend (startRecording s).1).2 = [] := by
  refine ⟨?_, fun h => ?_, ?_, ?_, ?_, ?_, ?_, ?_, ?_, ?_, ?_, rfl, ?_⟩
  · rw [show (stopRecording hasOnSend s).2 =
        teardownEvents s ++ callbackEvents hasOnSend s from rfl,
      transcriptEvents_append, transcriptEvents_teardown,
      transcriptEvents_callback]
    simp
  · rw [show (stopRecording true s).2 =
        teardownEvents s ++ callbackEvents true s from rfl]
    unfold callbackEvents
    simp [h]
  · simp [step, startRecording, transcriptEvents]
  · simp [step, pauseRecording, transcriptEvents]
  · simp [step, resumeRecording, transcriptEvents]
  · simp [step, transcriptEvents]
  · simp [step, transcriptEvents]
  · simp [step, transcriptEvents]
  · simp [step, transcriptEvents]
  · simp [step, transcriptEvents]
  · simp [step, onerror, transcriptEvents]
  · rw [show (stopRecording hasOnSend (startRecording s).1).2 =
        teardownEvents (startRecording s).1 ++
          callbackEvents hasOnSend (startRecording s).1 from rfl,
      transcriptEvents_append, transcriptEvents_teardown,
      transcriptEvents_callback]
    have h : (startRecording s).1.transcript = "" := rfl
    rw [h]
    decide

/-- Witness for `stop_callback_contract`: the callback-order clause
evaluated on a state whose transcript is `"hi "`. -/
theorem stop_callback_contract_witness :
    (stopRecording true { initState with transcript := "hi " }).2 =
      teardownEvents { initState with transcript := "hi " } ++
        [Event.onTranscript (jsTrim "hi "), Event.onSend (jsTrim "hi ")] :=
  (stop_callback_contract true { initState with transcript := "hi " } [] []).2.1
    (by decide)

/-- C4: a `no-speech` recognition error leaves the state and effects
completely unchanged (listening continues); any other error performs the
`stopRecording` teardown — recording flags cleared, transcript preserved
— and the preserved finalized text is handed to `onTranscript` when its
trim is non-empty. -/
theorem onerror_policy (hasOnSend : Bool) (e : String) (s : VoiceState) :
    onerror hasOnSend "no-speech" s = (s, [])
    ∧ (e ≠ "no-speech" →
        (onerror hasOnSend e s).1.isRecording = false
        ∧ (onerror hasOnSend e s).1.isPaused = false
        ∧ (onerror hasOnSend e s).1.transcript = s.transcript
        ∧ (onerror hasOnSend e s).1.interimTranscript = s.interimTranscript
        ∧ transcriptEvents (onerror hasOnSend e s).2 =
            (if jsTrim s.transcript = "" then [] else [jsTrim s.transcript])) := by
  refine ⟨by simp [onerror], fun h => ?_⟩
  rw [show onerror hasOnSend e s = stopRecording hasOnSend s from by
    simp [onerror, h]]
  refine ⟨rfl, rfl, rfl, rfl, ?_⟩
  rw [show (stopRecording hasOnSend s).2 =
      teardownEvents s ++ callbackEvents hasOnSend s from rfl,
    transcriptEvents_append, transcriptEvents_teardown,
    transcriptEvents_callback]
  simp

/-- A concrete mid-session state with finalized transcript `"ok"`. -/
def midSession : VoiceState :=
  { initState with
      isRecording := true,
      transcript := "ok" }

/-- Witness for `onerror_policy`: a `"network"` error on a state with
transcript `"ok"` tears the session down and emits `onTranscript "ok"`. -/
theorem onerror_policy_witness :
    (onerror true "network" midSession).1.isRecording = false
    ∧ transcriptEvents (onerror true "network" midSession).2 =
      (if jsTrim midSession.transcript = "" then []
       else [jsTrim midSession.transcript]) :=
  ⟨((onerror_policy true "network" midSession).2 (by decide)).1,
   ((onerror_policy true "network" midSession).2 (by decide)).2.2.2.2⟩

/-- A concrete paused mid-session state with audio level 42. -/
def pausedSession : VoiceState :=
  { initState with
      isRecording := true,
      isPaused := true,
      audioLevel := 42 }

theorem onend_preserves_flags (s : VoiceState) :
    (onend s).isRecording = s.isRecording ∧ (onend s).isPaused = s.isPaused := by
  unfold onend
  split <;> exact ⟨rfl, rfl⟩

theorem onend_of_recording (s : VoiceState) (h1 : s.isRecording = true)
    (h2 : s.isPaused = false) : onend s = { s with listening := true } := by
  unfold onend
  simp [h1, h2]

theorem onend_iterate_flags (s : VoiceState) (n : ℕ) :
    (onend^[n] s).isRecording = s.isRecording
    ∧ (onend^[n] s).isPaused = s.isPaused := by
  induction n with
  | zero => exact ⟨rfl, rfl⟩
  | succ n ih =>
    rw [Function.iterate_succ_apply']
    exact ⟨(onend_preserves_flags _).1.trans ih.1,
           (onend_preserves_flags _).2.trans ih.2⟩

/-- C5: a spontaneous end of the recognition stream while recording and
not paused immediately restarts listening, and this holds for any number
of consecutive end events (no bound on restart count); once paused or no
longer recording — in particular right after `pauseRecording` or
`stopRecording` — an end event does not restart listening. -/
theorem onend_restart_policy (hasOnSend : Bool) (s : VoiceState) (n : ℕ) :
    (s.isRecording = true → s.isPaused = false → 0 < n →
      (onend^[n] s).listening = true)
    ∧ (s.isPaused = true → (onend s).listening = false)
    ∧ (s.isRecording = false → (onend s).listening = false)
    ∧ (onend (stopRecording hasOnSend s).1).listening = false
    ∧ (onend (pauseRecording s).1).listening = false := by
  refine ⟨fun h1 h2 hn => ?_, fun h => ?_, fun h => ?_, ?_, ?_⟩
  · obtain ⟨m, rfl⟩ := Nat.exists_eq_succ_of_ne_zero (Nat.pos_iff_ne_zero.mp hn)
    rw [Function.iterate_succ_apply',
      onend_of_recording _ ((onend_iterate_flags s m).1.trans h1)
        ((onend_iterate_flags s m).2.trans h2)]
  · unfold onend
    simp [h]
  · unfold onend
    simp [h]
  · unfold onend
    simp [stopRecording]
  · unfold onend
    simp [pauseRecording]

/-- Witness for `onend_restart_policy`: three consecutive end events
while recording keep listening on; an end event while paused leaves
listening off. -/
theorem onend_restart_policy_witness :
    (onend^[3] { initState with isRecording := true }).listening = true
    ∧ (onend pausedSession).listening = false :=
  ⟨(onend_restart_policy true { initState with isRecording := true } 3).1
      rfl rfl (by decide),
   (onend_restart_policy true pausedSession 1).2.1 rfl⟩

/-- C6: a sampling tick taken when the component is not recording or is
paused returns the state unchanged and does not schedule another frame
(self-termination without a cancellation token); in particular right
after `pauseRecording` the next would-be tick leaves `audioLevel`
untouched and stops rescheduling, and likewise after `stopRecording`. -/
theorem updateLevel_self_terminating (hasOnSend : Bool) (s : VoiceState)
    (d : List ℕ) :
    (s.isRecording = false ∨ s.isPaused = true → updateLevel d s = (s, false))
    ∧ (updateLevel d (pauseRecording s).1).1.audioLevel =
        (pauseRecording s).1.audioLevel
    ∧ (updateLevel d (pauseRecording s).1).2 = false
    ∧ (updateLevel d (stopRecording hasOnSend s).1).2 = false := by
  refine ⟨fun h => ?_, ?_, ?_, ?_⟩
  · unfold updateLevel
    rcases h with h | h <;> simp [h]
  · unfold updateLevel
    simp [pauseRecording]
  · unfold updateLevel
    simp [pauseRecording]
  · unfold updateLevel
    simp [stopRecording]

/-- Witness for `updateLevel_self_terminating`: a tick on a paused state
with level 42 changes nothing and does not reschedule. -/
theorem updateLevel_self_terminating_witness :
    updateLevel [10, 20] pausedSession = (pausedSession, false) :=
  (updateLevel_self_terminating true pausedSession [10, 20]).1 (Or.inr rfl)

/-- C8: `recordingTime` is a natural number that `startRecording` resets
to 0 and that no other operation ever decreases; `pauseRecording` leaves
the interval timer running — a timer tick while paused still increments
the counter — and only `stopRecording` stops the timer
(`resumeRecording` and `clearTranscript` leave it untouched). -/
theorem timer_policy (hasOnSend : Bool) (s : VoiceState) (a : Action) :
    (startRecording s).1.recordingTime = 0
    ∧ (a ≠ Action.start →
        s.recordingTime ≤ (step hasOnSend a s).1.recordingTime)
    ∧ (pauseRecording s).1.timerRunning = s.timerRunning
    ∧ (s.timerRunning = true →
        (timerTick (pauseRecording s).1).recordingTime = s.recordingTime + 1)
    ∧ (stopRecording hasOnSend s).1.timerRunning = false
    ∧ (resumeRecording s).1.timerRunning = s.timerRunning
    ∧ (clearTranscript s).timerRunning = s.timerRunning := by
  refine ⟨rfl, fun h => ?_, rfl, fun ht => ?_, rfl, rfl, rfl⟩
  · cases a with
    | start => exact absurd rfl h
    | pause => exact le_refl _
    | resume => exact le_refl _
    | stop => exact le_refl _
    | clear => exact le_refl _
    | ended =>
      simp only [step, onend]
      split <;> exact le_refl _
    | tick =>
      simp only [step, timerTick]
      split
      · exact Nat.le_succ _
      · exact le_refl _
    | results rs =>
      simp only [step, onresult]
      split <;> exact le_refl _
    | error e =>
      simp only [step, onerror]
      split <;> exact le_refl _
    | level d =>
      simp only [step, updateLevel]
      split <;> exact le_refl _
  · simp [timerTick, pauseRecording, ht]

/-- Witness for `timer_policy`: on a freshly started session a timer tick
does not decrease the counter, and a tick right after pausing still
increments it. -/
theorem timer_policy_witness :
    (startRecording initState).1.recordingTime ≤
      (step true Action.tick (startRecording initState).1).1.recordingTime
    ∧ (timerTick (pauseRecording
        (startRecording initState).1).1).recordingTime =
      (startRecording initState).1.recordingTime + 1 :=
  ⟨(timer_policy true (startRecording initState).1 Action.tick).2.1
      (by decide),
   (timer_policy true (startRecording initState).1 Action.tick).2.2.2.1 rfl⟩

/-- A concrete recording state whose last sampled audio level is 50. -/
def recordingLoud : VoiceState :=
  { initState with
      isRecording := true,
      audioLevel := 50 }

/-- C7 counterexample: pausing takes the session out of active sampling
but does not force `audioLevel` to 0 — the level keeps its last sampled
value 50, refuting the claim that `audioLevel` is forced to 0 whenever
the session is not actively sampling. -/
theorem audioLevel_paused_not_zero :
    (pauseRecording recordingLoud).1.isPaused = true
    ∧ ¬ (pauseRecording recordingLoud).1.audioLevel = 0 := by
  refine ⟨rfl, ?_⟩
  decide

/-- C7 amended: `audioLevel` always lies in [0,100] — every operation
either preserves it, zeroes it, or stores `min 100 (mean / 255 * 150)`,
which is nonnegative and clamped at 100; an active sampling tick stores
exactly that value; `stopRecording` forces the level to 0; but
`pauseRecording` leaves it at its last sampled value rather than forcing
it to 0. -/
theorem audioLevel_bounds (hasOnSend : Bool) (a : Action) (s : VoiceState)
    (d : List ℕ) (h0 : 0 ≤ s.audioLevel) (h100 : s.audioLevel ≤ 100) :
    (0 ≤ (step hasOnSend a s).1.audioLevel
      ∧ (step hasOnSend a s).1.audioLevel ≤ 100)
    ∧ (s.isRecording = true → s.isPaused = false →
        (updateLevel d s).1.audioLevel =
          min 100 ((d.sum : ℚ) / (d.length : ℚ) / 255 * 150))
    ∧ (stopRecording hasOnSend s).1.audioLevel = 0
    ∧ (pauseRecording s).1.audioLevel = s.audioLevel := by
  have hmin : ∀ l : List ℕ,
      (0 : ℚ) ≤ min 100 ((l.sum : ℚ) / (l.length : ℚ) / 255 * 150)
      ∧ min 100 ((l.sum : ℚ) / (l.length : ℚ) / 255 * 150) ≤ 100 := by
    intro l
    constructor
    · apply le_min
      · norm_num
      · have hdiv : (0 : ℚ) ≤ (l.sum : ℚ) / (l.length : ℚ) :=
          div_nonneg (Nat.cast_nonneg _) (Nat.cast_nonneg _)
        have := div_nonneg hdiv (by norm_num : (0 : ℚ) ≤ 255)
        exact mul_nonneg this (by norm_num)
    · exact min_le_left _ _
  refine ⟨?_, fun h1 h2 => ?_, rfl, rfl⟩
  · cases a with
    | start => exact ⟨h0, h100⟩
    | pause => exact ⟨h0, h100⟩
    | resume => exact ⟨h0, h100⟩
    | stop => exact ⟨le_refl 0, by show (0 : ℚ) ≤ 100; norm_num⟩
    | clear => exact ⟨h0, h100⟩
    | ended =>
      simp only [step, onend]
      split <;> exact ⟨h0, h100⟩
    | tick =>
      simp only [step, timerTick]
      split <;> exact ⟨h0, h100⟩
    | results rs =>
      simp only [step, onresult]
      split <;> exact ⟨h0, h100⟩
    | error e =>
      simp only [step, onerror]
      split
      · exact ⟨h0, h100⟩
      · exact ⟨le_refl 0, by show (0 : ℚ) ≤ 100; norm_num⟩
    | level d2 =>
      simp only [step, updateLevel]
      split
      · exact ⟨h0, h100⟩
      · exact hmin d2
  · simp [updateLevel, h1, h2]

/-- Witness for `audioLevel_bounds`: a sampling tick over the bins
`[200, 100]` on a mid-session state keeps the level in [0,100] and stores
the clamped scaled mean. -/
theorem audioLevel_bounds_witness :
    (0 ≤ (step true (Action.level [200, 100]) midSession).1.audioLevel
      ∧ (step true (Action.level [200, 100]) midSession).1.audioLevel ≤ 100)
    ∧ (updateLevel [200, 100] midSession).1.audioLevel =
        min 100 ((([200, 100] : List ℕ).sum : ℚ) /
          (([200, 100] : List ℕ).length : ℚ) / 255 * 150) :=
  ⟨(audioLevel_bounds true (Action.level [200, 100]) midSession [200, 100]
      (by decide) (by decide)).1,
   (audioLevel_bounds true (Action.level [200, 100]) midSession [200, 100]
      (by decide) (by decide)).2.1 rfl rfl⟩

/-- A concrete stopped session: the state and the effects of the first
`stopRecording` on a recording session whose transcript is `"hi"` and
whose timer, stream and audio-context refs are all set. -/
def firstStop : VoiceState × List Event :=
  stopRecording true
    { initState with
        isRecording := true,
        transcript := "hi",
        listening := true,
        timerRunning := true,
        timerSet := true,
        streamSet := true,
        ctxSet := true }

/-- C1: `stopRecording` is not idempotent in the code: the first call
performs the teardown and fires `onTranscript "hi"` and `onSend "hi"`,
and because the source never clears `timerRef`, `streamRef`,
`audioContextRef` or the transcript, a second call on the
already-stopped state clears the interval again, stops the stream tracks
again, closes the audio context again, and fires `onTranscript "hi"` and
`onSend "hi"` a second time — the identical effect list. -/
theorem double_stop_repeats_teardown :
    firstStop.2 =
      [Event.recStop, Event.clearTimer, Event.trackStop, Event.contextClose,
       Event.onTranscript "hi", Event.onSend "hi"]
    ∧ (stopRecording true firstStop.1).2 = firstStop.2 := by
  decide

end VoiceInput
